import Mathlib

/-!
# Verification of `pantone_formula_guide_coated_scraper_v.1.0.py`

A shallow embedding of the Pantone Formula Guide Coated scraper.  The
external collaborators (the HTTP transport and the HTML parser) are
modelled as oracles: a fetch oracle maps a URL to either a raised
transport exception or a response carrying a truthiness flag (Python's
`if response:`, i.e. status < 400) together with the parsed document,
and a parsed document (`Soup`) is a pair of query primitives
(find-by-class, find-by-id), each returning at most one element.

Python control effects are made explicit:
* a function that can raise returns `Except PyError _`;
* Python's `None` is `Option.none`;
* `scrape_colour`'s result type is
  `Except PyError (Option (Option String × Option String))`: the outer
  `Option` distinguishes the bare `None` produced by falling off the end
  of the function from a returned tuple of two optional fields;
* observable actions (fetch attempts, file writes, console prints,
  sleeps) are collected in an event trace.
-/

/-! ## Python string primitives -/

/-- Python whitespace for `str.strip()` / `int()` (ASCII fragment):
space, tab, newline, carriage return, vertical tab, form feed. -/
def pyIsSpace (c : Char) : Bool :=
  c = ' ' || c = '\t' || c = '\n' || c = '\r' || c = '\x0b' || c = '\x0c'

/-- Strip leading and trailing Python whitespace from a character list. -/
def pyStripList (cs : List Char) : List Char :=
  ((cs.dropWhile pyIsSpace).reverse.dropWhile pyIsSpace).reverse

/-- Python `str.strip()` with no argument. -/
def pyStrip (s : String) : String :=
  ⟨pyStripList s.toList⟩

/-- Value of a Python integer numeral body: digits with single
underscores allowed between digit groups (`digit (underscore? digit)*`).
The boolean argument records whether the previous character was a digit. -/
def pyNumeralVal : List Char → Nat → Bool → Option Nat
  | [], acc, true => some acc
  | [], _, false => none
  | c :: rest, acc, lastDigit =>
    if c.isDigit then
      pyNumeralVal rest (acc * 10 + (c.toNat - 48)) true
    else if c = '_' && lastDigit then
      pyNumeralVal rest acc false
    else
      none

/-- Python `int(s)` for a string (ASCII fragment): optional surrounding
whitespace, optional single sign, then a numeral.  `none` models the
`ValueError` raised on parse failure. -/
def pyIntParse (s : String) : Option Int :=
  match pyStripList s.toList with
  | '+' :: rest => (pyNumeralVal rest 0 false).map fun n => (n : Int)
  | '-' :: rest => (pyNumeralVal rest 0 false).map fun n => -(n : Int)
  | cs => (pyNumeralVal cs 0 false).map fun n => (n : Int)

/-! ## Identifiers -/

/-- An identifier as passed to `scrape_colour`: the numbered colours are
Python `int`s, the named colours Python `str`s. -/
inductive Colour where
  | int (n : Int)
  | str (s : String)
  deriving DecidableEq

/-- Python `int(colour)` inside `scrape_colour`: the identity on an
integer, the fallible parse on a string. -/
def pyIntOf : Colour → Option Int
  | .int n => some n
  | .str s => pyIntParse s

/-- Python `str(colour)`: decimal rendering of an integer, identity on a
string. -/
def pyStrOf : Colour → String
  | .int n => toString n
  | .str s => s

/-! ## Parsed documents (external parser collaborator) -/

/-- An element of the parsed document; only its text content matters. -/
structure Element where
  text : String
  deriving DecidableEq

/-- A parsed document: the two query primitives used by the extractor,
`soup.find(attrs=\x7b'class': ...\x7d)` and `soup.find(attrs=\x7b'id': ...\x7d)`,
each returning at most one element. -/
structure Soup where
  findByClass : String → Option Element
  findById : String → Option Element

/-! ## Errors, responses, events -/

/-- The Python exceptions this program can raise or propagate. -/
inductive PyError where
  /-- `UnboundLocalError`: `colour_url` read but never assigned. -/
  | unboundLocal
  /-- `TypeError`: subscripting the `None` returned by `scrape_colour`. -/
  | typeErrorSubscript
  /-- An exception raised by `requests.get` (transport failure). -/
  | requestException
  deriving DecidableEq

/-- A fetch response: `ok` is the truthiness of the response object
(status < 400) and `soup` the parsed document of its body. -/
structure Response where
  ok : Bool
  soup : Soup

/-- The network transport oracle: `.error` models a raised transport
exception, `.ok` a response that arrived. -/
abbrev Fetch := String → Except PyError Response

/-- Observable actions of the program, in order. -/
inductive Event where
  /-- The output file is opened in append mode. -/
  | openAppend
  /-- `requests.get(url)` is attempted. -/
  | fetch (url : String)
  /-- One line is appended to the output file. -/
  | write (line : String)
  /-- One line is printed to the console. -/
  | consoleLine (msg : String)
  /-- `time.sleep(n)`. -/
  | sleep (n : Nat)
  /-- The output handle is explicitly closed. -/
  | closeSink
  deriving DecidableEq

/-! ## Module constants (source lines 31-68) -/

def COLOUR_FINDER_URL : String := "https://www.pantone.com/color-finder"

def CSV_FILE_NAME : String := "pantone_formula_guide_coated.csv"

/-- Python `range(100, 7772)`. -/
def PANTONE_COATED_NUMBERED_COLOURS : List Int :=
  (List.range' 100 7672).map Int.ofNat

def PANTONE_COATED_NAMED_COLOURS : List String := [
  "Black C", "Black 0961 C", "Black 2 C", "Black 3 C", "Black 4 C",
  "Black 5 C", "Black 6 C", "Black 7 C", "Blue 072 C", "Blue 0821 C",
  "Bright Red C", "Cool Gray 1 C", "Cool Gray 2 C", "Cool Gray 3 C",
  "Cool Gray 4 C", "Cool Gray 5 C", "Cool Gray 6 C", "Cool Gray 7 C",
  "Cool Gray 8 C", "Cool Gray 9 C", "Cool Gray 10 C", "Cool Gray 11 C",
  "Dark Blue C", "Green C", "Green 0921 C", "Magenta 0521 C",
  "Medium Purple C", "Orange 021 C", "Pink C", "Process Blue C", "Purple C",
  "Red 032 C", "Red 0331 C", "Reflex Blue C", "Rhodamine Red C", "Violet C",
  "Violet 0631 C", "Warm Gray 1 C", "Warm Gray 2 C", "Warm Gray 3 C",
  "Warm Gray 4 C", "Warm Gray 5 C", "Warm Gray 6 C", "Warm Gray 7 C",
  "Warm Gray 8 C", "Warm Gray 9 C", "Warm Gray 10 C", "Warm Gray 11 C",
  "Warm Red C", "Yellow C", "Yellow 012 C", "Yellow 0131 C"
  ]

/-- The two identifier sequences as fed to the main loops. -/
def namedIdentifiers : List Colour :=
  PANTONE_COATED_NAMED_COLOURS.map Colour.str

def numberedIdentifiers : List Colour :=
  PANTONE_COATED_NUMBERED_COLOURS.map Colour.int

def allIdentifiers : List Colour :=
  namedIdentifiers ++ numberedIdentifiers

/-! ## URL builders (source lines 71-94) -/

/-- Python `name.replace(' ', '-')`: for a single-character pattern,
`str.replace` substitutes every occurrence of the character, i.e. maps
each space to a hyphen. -/
def pyReplaceSpaceHyphen (s : String) : String :=
  ⟨s.toList.map fun c => if c = ' ' then '-' else c⟩

/-- Source `get_colour_url_from_name`: replace each space with a hyphen and
append to the base URL. -/
def get_colour_url_from_name (colour_finder_url name : String) : String :=
  colour_finder_url ++ "/" ++ pyReplaceSpaceHyphen name

/-- Source `get_colour_url_from_number`: append `<number>-C` to the base URL
(`number` has already been rendered by `str`). -/
def get_colour_url_from_number (colour_finder_url number : String) : String :=
  colour_finder_url ++ "/" ++ number ++ "-C"

/-! ## Field extractors (source lines 97-122) -/

/-- Source `get_colour_code`: find by class `pColorCode`; if found return the
stripped text, else fall off the end (Python `None`). -/
def get_colour_code (soup : Soup) : Option String :=
  match soup.findByClass "pColorCode" with
  | some colour_code => some (pyStrip colour_code.text)
  | none => none

/-- Source `get_colour_hex`: find by id `ctl00_cphContent_ctl00_divHEXValues`;
if found return the stripped text, else fall off the end (Python
`None`). -/
def get_colour_hex (soup : Soup) : Option String :=
  match soup.findById "ctl00_cphContent_ctl00_divHEXValues" with
  | some colour_hex => some (pyStrip colour_hex.text)
  | none => none

/-! ## Lookup engine (source lines 125-148) -/

/-- The `try: if int(colour): ... except ValueError: ...` dispatch of
`scrape_colour`: the value held by `colour_url` after the block, or
`none` when the variable was never assigned.  When `int(colour)`
succeeds with value `0` the `if` body is skipped and no `except` fires,
so `colour_url` stays unassigned. -/
def colour_url? : Colour → Option String
  | .int n =>
    if n ≠ 0 then
      some (get_colour_url_from_number COLOUR_FINDER_URL (toString n))
    else none
  | .str s =>
    match pyIntParse s with
    | some n =>
      if n ≠ 0 then
        some (get_colour_url_from_number COLOUR_FINDER_URL s)
      else none
    | none => some (get_colour_url_from_name COLOUR_FINDER_URL s)

/-- Source `scrape_colour`.  When the dispatch left `colour_url` unassigned,
reading it raises `UnboundLocalError` and nothing is fetched.  Otherwise
one fetch is attempted; a raised transport exception propagates; a falsy
response makes the function fall off the end returning bare `None`
(`.ok none`); a truthy response yields the extracted pair. -/
def scrape_colour (fetch : Fetch) (colour : Colour) :
    Except PyError (Option (Option String × Option String)) × List Event :=
  match colour_url? colour with
  | none => (.error .unboundLocal, [])
  | some colour_url =>
    (match fetch colour_url with
     | .error e => .error e
     | .ok response =>
       if response.ok then
         .ok (some (get_colour_code response.soup, get_colour_hex response.soup))
       else
         .ok none,
     [Event.fetch colour_url])

/-! ## Result sink (source lines 151-164) -/

/-- The state of the output path.  The file content is kept as the list
of appended chunks (the on-disk content is their concatenation). -/
inductive PathState where
  | absent
  | file (records : List String)
  /-- The path exists but is not a regular file. -/
  | nonfile
  deriving DecidableEq

/-- Source `prepare_csv_file`: both guarded branches open in append mode (an
existing regular file keeps its records; a missing file starts empty).
When the path exists but is not a regular file neither branch assigns
`csv_file` and the `return` raises `UnboundLocalError`. -/
def prepare_csv_file : PathState → Except PyError (List String)
  | .file records => .ok records
  | .absent => .ok []
  | .nonfile => .error .unboundLocal

/-! ## Run controller (source lines 167-188) -/

/-- One loop-body iteration of `main` for one identifier: call
`scrape_colour`, subscript the result twice (raising `TypeError` when it
is bare `None`), and when both fields are non-`None` print, append one
record, print again and sleep one second. -/
def process_colour (fetch : Fetch) (colour : Colour) :
    Except PyError Unit × List Event :=
  match (scrape_colour fetch colour).1 with
  | .error e => (.error e, (scrape_colour fetch colour).2)
  | .ok none => (.error .typeErrorSubscript, (scrape_colour fetch colour).2)
  | .ok (some (colourCode?, colourHex?)) =>
    match colourCode?, colourHex? with
    | some colour_code, some colour_hex =>
      (.ok (), (scrape_colour fetch colour).2 ++
        [Event.consoleLine ("Colour data obtained: " ++ colour_code ++ " / " ++ colour_hex),
         Event.write (colour_code ++ ", " ++ colour_hex ++ ", \n"),
         Event.consoleLine ("Colour data written to " ++ CSV_FILE_NAME),
         Event.sleep 1])
    | _, _ => (.ok (), (scrape_colour fetch colour).2)

/-- One `for` loop of `main` over a list of identifiers.  An uncaught
exception aborts the loop; events up to the abort are kept. -/
def run_colours (fetch : Fetch) : List Colour → Except PyError Unit × List Event
  | [] => (.ok (), [])
  | colour :: rest =>
    match (process_colour fetch colour).1 with
    | .error e => (.error e, (process_colour fetch colour).2)
    | .ok () =>
      ((run_colours fetch rest).1,
       (process_colour fetch colour).2 ++ (run_colours fetch rest).2)

/-- The body of `main` after the file is opened: the named-colour phase,
then the numbered-colour phase, then the completion print. -/
def main_loop (fetch : Fetch) : Except PyError Unit × List Event :=
  match (run_colours fetch namedIdentifiers).1 with
  | .error e => (.error e, (run_colours fetch namedIdentifiers).2)
  | .ok () =>
    match (run_colours fetch numberedIdentifiers).1 with
    | .error e =>
      (.error e,
       (run_colours fetch namedIdentifiers).2 ++ (run_colours fetch numberedIdentifiers).2)
    | .ok () =>
      (.ok (),
       (run_colours fetch namedIdentifiers).2 ++ (run_colours fetch numberedIdentifiers).2 ++
         [Event.consoleLine "Scraping is complete."])

/-- The lines appended to the output file during a trace, in order. -/
def writesOf (evs : List Event) : List String :=
  evs.filterMap fun e =>
    match e with
    | .write line => some line
    | _ => none

/-- The sleeps performed during a trace, in order. -/
def sleepsOf (evs : List Event) : List Event :=
  evs.filter fun e =>
    match e with
    | .sleep _ => true
    | _ => false

/-- Source `main`: open the sink, run both phases, and leave the file holding
its previous records plus every appended line (writes persist even when
a later iteration raises).  Returns (outcome, trace, final path state). -/
def run_program (fetch : Fetch) (st : PathState) :
    Except PyError Unit × List Event × PathState :=
  match prepare_csv_file st with
  | .error e => (.error e, [], st)
  | .ok records =>
    ((main_loop fetch).1, Event.openAppend :: (main_loop fetch).2,
     .file (records ++ writesOf (main_loop fetch).2))

/-! ## Derived measures -/

/-- A lookup counts as successful when `scrape_colour` returns a tuple
with both fields present. -/
def successfulLookup (fetch : Fetch) (colour : Colour) : Bool :=
  match (scrape_colour fetch colour).1 with
  | .ok (some (some _, some _)) => true
  | _ => false

/-- Number of successful lookups a fetch oracle yields over a list of
identifiers. -/
def successCount (fetch : Fetch) (colours : List Colour) : Nat :=
  (colours.filter (successfulLookup fetch)).length

/-! ## Concrete oracles used as test inputs -/

/-- A parsed document in which neither marker is found. -/
def emptySoup : Soup :=
  { findByClass := fun _ => none, findById := fun _ => none }

/-- Every fetch succeeds with a page containing neither marker. -/
def benignFetch : Fetch := fun _ => .ok { ok := true, soup := emptySoup }

/-- Every fetch comes back with a non-success status (falsy response). -/
def failStatusFetch : Fetch := fun _ => .ok { ok := false, soup := emptySoup }

/-- Every fetch raises a transport exception. -/
def raiseFetch : Fetch := fun _ => .error .requestException

/-- A parsed document carrying both markers, with untrimmed text. -/
def demoSoup : Soup :=
  { findByClass := fun attr =>
      if attr = "pColorCode" then some { text := "  2995 C  " } else none,
    findById := fun attr =>
      if attr = "ctl00_cphContent_ctl00_divHEXValues" then
        some { text := " 00A9E0\n" }
      else none }

/-- Every fetch succeeds with the demo page (both fields present). -/
def fullFetch : Fetch := fun _ => .ok { ok := true, soup := demoSoup }

/-! ## Shared structural lemmas -/

/-- Events that a loop-body iteration can emit (never the opening or the
closing of the sink). -/
def isLoopEvent : Event → Bool
  | .fetch _ => true
  | .write _ => true
  | .consoleLine _ => true
  | .sleep _ => true
  | .openAppend => false
  | .closeSink => false

theorem scrape_trace_shape (fetch : Fetch) (colour : Colour) :
    (scrape_colour fetch colour).2 = [] ∨
      ∃ url, (scrape_colour fetch colour).2 = [Event.fetch url] := by
  unfold scrape_colour
  rcases colour_url? colour with _ | url
  · exact Or.inl rfl
  · exact Or.inr ⟨url, rfl⟩

theorem writesOf_append (l1 l2 : List Event) :
    writesOf (l1 ++ l2) = writesOf l1 ++ writesOf l2 :=
  List.filterMap_append l1 l2 _

theorem sleepsOf_append (l1 l2 : List Event) :
    sleepsOf (l1 ++ l2) = sleepsOf l1 ++ sleepsOf l2 :=
  List.filter_append l1 l2

theorem writesOf_scrape (fetch : Fetch) (colour : Colour) :
    writesOf (scrape_colour fetch colour).2 = [] := by
  rcases scrape_trace_shape fetch colour with h | ⟨url, h⟩ <;> rw [h] <;> rfl

theorem sleepsOf_scrape (fetch : Fetch) (colour : Colour) :
    sleepsOf (scrape_colour fetch colour).2 = [] := by
  rcases scrape_trace_shape fetch colour with h | ⟨url, h⟩ <;> rw [h] <;> rfl

theorem scrape_events_loopish (fetch : Fetch) (colour : Colour) :
    ∀ e ∈ (scrape_colour fetch colour).2, isLoopEvent e = true := by
  rcases scrape_trace_shape fetch colour with h | ⟨url, h⟩ <;> rw [h] <;> simp [isLoopEvent]

/-- The loop body, expressed as a case split on the lookup outcome. -/
theorem process_colour_eq (fetch : Fetch) (colour : Colour) :
    process_colour fetch colour =
      match (scrape_colour fetch colour).1 with
      | .error e => (.error e, (scrape_colour fetch colour).2)
      | .ok none => (.error .typeErrorSubscript, (scrape_colour fetch colour).2)
      | .ok (some (some colour_code, some colour_hex)) =>
        (.ok (), (scrape_colour fetch colour).2 ++
          [Event.consoleLine ("Colour data obtained: " ++ colour_code ++ " / " ++ colour_hex),
           Event.write (colour_code ++ ", " ++ colour_hex ++ ", \n"),
           Event.consoleLine ("Colour data written to " ++ CSV_FILE_NAME),
           Event.sleep 1])
      | .ok (some _) => (.ok (), (scrape_colour fetch colour).2) := by
  unfold process_colour
  rcases hsc : (scrape_colour fetch colour).1 with e | o
  · rfl
  · rcases o with _ | ⟨c?, x?⟩
    · rfl
    · rcases c? with _ | c <;> rcases x? with _ | x <;> rfl

theorem process_events_loopish (fetch : Fetch) (colour : Colour) :
    ∀ e ∈ (process_colour fetch colour).2, isLoopEvent e = true := by
  intro e he
  rw [process_colour_eq] at he
  have hsc := scrape_events_loopish fetch colour
  rcases hmatch : (scrape_colour fetch colour).1 with er | o
  · rw [hmatch] at he; exact hsc e he
  · rcases o with _ | ⟨c?, x?⟩
    · rw [hmatch] at he; exact hsc e he
    · rcases c? with _ | c <;> rcases x? with _ | x
      · rw [hmatch] at he; exact hsc e he
      · rw [hmatch] at he; exact hsc e he
      · rw [hmatch] at he; exact hsc e he
      · rw [hmatch] at he
        rcases List.mem_append.mp he with h | h
        · exact hsc e h
        · fin_cases h <;> rfl

theorem run_colours_events_loopish (fetch : Fetch) (cs : List Colour) :
    ∀ e ∈ (run_colours fetch cs).2, isLoopEvent e = true := by
  induction cs with
  | nil => intro e he; simp [run_colours] at he
  | cons c rest ih =>
    intro e he
    unfold run_colours at he
    rcases hp : (process_colour fetch c).1 with er | u
    · rw [hp] at he
      exact process_events_loopish fetch c e he
    · rw [hp] at he
      rcases List.mem_append.mp he with h | h
      · exact process_events_loopish fetch c e h
      · exact ih e h

theorem main_loop_events_loopish (fetch : Fetch) :
    ∀ e ∈ (main_loop fetch).2, isLoopEvent e = true := by
  intro e he
  unfold main_loop at he
  rcases h1 : (run_colours fetch namedIdentifiers).1 with er | u
  · rw [h1] at he
    exact run_colours_events_loopish fetch _ e he
  · rw [h1] at he
    rcases h2 : (run_colours fetch numberedIdentifiers).1 with er | u
    · rw [h2] at he
      rcases List.mem_append.mp he with h | h
      · exact run_colours_events_loopish fetch _ e h
      · exact run_colours_events_loopish fetch _ e h
    · rw [h2] at he
      rcases List.mem_append.mp he with h | h
      · rcases List.mem_append.mp h with h3 | h3
        · exact run_colours_events_loopish fetch _ e h3
        · exact run_colours_events_loopish fetch _ e h3
      · rw [List.mem_singleton] at h
        subst h
        rfl

/-! ## Completion of a run under a benign oracle -/

theorem named_colours_not_numeric :
    PANTONE_COATED_NAMED_COLOURS.all (fun s => (pyIntParse s).isNone) = true := by
  decide

theorem scrape_benign_of_url (colour : Colour) (url : String)
    (h : colour_url? colour = some url) :
    scrape_colour benignFetch colour = (.ok (some (none, none)), [Event.fetch url]) := by
  unfold scrape_colour
  rw [h]
  rfl

theorem process_benign_of_url (colour : Colour) (url : String)
    (h : colour_url? colour = some url) :
    (process_colour benignFetch colour).1 = .ok () := by
  rw [process_colour_eq, scrape_benign_of_url colour url h]

theorem process_benign_str (s : String) (hp : pyIntParse s = none) :
    (process_colour benignFetch (Colour.str s)).1 = .ok () := by
  refine process_benign_of_url _ (get_colour_url_from_name COLOUR_FINDER_URL s) ?_
  simp only [colour_url?, hp]

theorem process_benign_int (n : Int) (hn : n ≠ 0) :
    (process_colour benignFetch (Colour.int n)).1 = .ok () := by
  refine process_benign_of_url _ (get_colour_url_from_number COLOUR_FINDER_URL (toString n)) ?_
  simp only [colour_url?]
  rw [if_pos hn]

theorem run_colours_ok (fetch : Fetch) (cs : List Colour)
    (h : ∀ c ∈ cs, (process_colour fetch c).1 = .ok ()) :
    (run_colours fetch cs).1 = .ok () := by
  induction cs with
  | nil => rfl
  | cons c rest ih =>
    unfold run_colours
    rw [h c (List.mem_cons_self c rest)]
    exact ih fun c2 hm => h c2 (List.mem_cons_of_mem _ hm)

theorem process_benign_ok (c : Colour) (hc : c ∈ allIdentifiers) :
    (process_colour benignFetch c).1 = .ok () := by
  rcases List.mem_append.mp hc with h | h
  · rcases List.mem_map.mp h with ⟨s, hs, rfl⟩
    refine process_benign_str s ?_
    have := List.all_eq_true.mp named_colours_not_numeric s hs
    exact Option.isNone_iff_eq_none.mp this
  · rcases List.mem_map.mp h with ⟨n, hn, rfl⟩
    rcases List.mem_map.mp hn with ⟨m, hm, rfl⟩
    have hb := (List.mem_range'_1.mp hm).1
    exact process_benign_int (Int.ofNat m) (Int.natCast_ne_zero.mpr (by omega))

theorem main_loop_benign_ok : (main_loop benignFetch).1 = .ok () := by
  have h1 : (run_colours benignFetch namedIdentifiers).1 = .ok () :=
    run_colours_ok _ _ fun c hc =>
      process_benign_ok c (List.mem_append.mpr (Or.inl hc))
  have h2 : (run_colours benignFetch numberedIdentifiers).1 = .ok () :=
    run_colours_ok _ _ fun c hc =>
      process_benign_ok c (List.mem_append.mpr (Or.inr hc))
  unfold main_loop
  rw [h1, h2]

theorem run_program_ok_iff (fetch : Fetch) (st : PathState) (records : List String)
    (h : prepare_csv_file st = .ok records) :
    (run_program fetch st).1 = (main_loop fetch).1 := by
  unfold run_program
  rw [h]

theorem run_program_benign_ok (st : PathState) (records : List String)
    (h : prepare_csv_file st = .ok records) :
    (run_program benignFetch st).1 = .ok () := by
  rw [run_program_ok_iff benignFetch st records h]
  exact main_loop_benign_ok

/-! ## Counting appended records -/

theorem process_writes_count (fetch : Fetch) (colour : Colour)
    (h : (process_colour fetch colour).1 = .ok ()) :
    (writesOf (process_colour fetch colour).2).length =
      (if successfulLookup fetch colour then 1 else 0) := by
  rw [process_colour_eq] at h ⊢
  unfold successfulLookup
  rcases hsc : (scrape_colour fetch colour).1 with er | o
  · rw [hsc] at h; exact absurd h (by simp)
  · rcases o with _ | ⟨c?, x?⟩
    · rw [hsc] at h; exact absurd h (by simp)
    · rcases c? with _ | c <;> rcases x? with _ | x
      · dsimp only; rw [writesOf_scrape]; rfl
      · dsimp only; rw [writesOf_scrape]; rfl
      · dsimp only; rw [writesOf_scrape]; rfl
      · dsimp only; rw [writesOf_append, writesOf_scrape]; rfl

theorem run_colours_ok_cons (fetch : Fetch) (c : Colour) (rest : List Colour)
    (h : (run_colours fetch (c :: rest)).1 = .ok ()) :
    (process_colour fetch c).1 = .ok () ∧ (run_colours fetch rest).1 = .ok () := by
  unfold run_colours at h
  rcases hp : (process_colour fetch c).1 with er | u
  · rw [hp] at h; exact absurd h (by simp)
  · rw [hp] at h
    exact ⟨rfl, h⟩

theorem successCount_cons (fetch : Fetch) (c : Colour) (rest : List Colour) :
    successCount fetch (c :: rest) =
      (if successfulLookup fetch c then 1 else 0) + successCount fetch rest := by
  unfold successCount
  rw [List.filter_cons]
  by_cases hs : successfulLookup fetch c
  · rw [if_pos hs, if_pos hs, List.length_cons]
    omega
  · rw [if_neg hs, if_neg hs]
    omega

theorem run_colours_writes_count (fetch : Fetch) (cs : List Colour)
    (h : (run_colours fetch cs).1 = .ok ()) :
    (writesOf (run_colours fetch cs).2).length = successCount fetch cs := by
  induction cs with
  | nil => rfl
  | cons c rest ih =>
    obtain ⟨hp, hr⟩ := run_colours_ok_cons fetch c rest h
    unfold run_colours
    rw [hp]
    dsimp only
    rw [writesOf_append, List.length_append, process_writes_count fetch c hp, ih hr,
      successCount_cons]

theorem main_loop_ok_parts (fetch : Fetch) (h : (main_loop fetch).1 = .ok ()) :
    (run_colours fetch namedIdentifiers).1 = .ok () ∧
      (run_colours fetch numberedIdentifiers).1 = .ok () := by
  unfold main_loop at h
  rcases h1 : (run_colours fetch namedIdentifiers).1 with er | u
  · rw [h1] at h; exact absurd h (by simp)
  · rcases h2 : (run_colours fetch numberedIdentifiers).1 with er | u
    · rw [h1, h2] at h; exact absurd h (by simp)
    · exact ⟨rfl, rfl⟩

theorem main_loop_ok_trace (fetch : Fetch) (h : (main_loop fetch).1 = .ok ()) :
    (main_loop fetch).2 =
      (run_colours fetch namedIdentifiers).2 ++ (run_colours fetch numberedIdentifiers).2 ++
        [Event.consoleLine "Scraping is complete."] := by
  obtain ⟨h1, h2⟩ := main_loop_ok_parts fetch h
  unfold main_loop
  rw [h1, h2]

theorem main_loop_writes_count (fetch : Fetch) (h : (main_loop fetch).1 = .ok ()) :
    (writesOf (main_loop fetch).2).length = successCount fetch allIdentifiers := by
  obtain ⟨h1, h2⟩ := main_loop_ok_parts fetch h
  rw [main_loop_ok_trace fetch h, writesOf_append, writesOf_append]
  have c1 := run_colours_writes_count fetch namedIdentifiers h1
  have c2 := run_colours_writes_count fetch numberedIdentifiers h2
  unfold successCount at c1 c2 ⊢
  rw [allIdentifiers, List.filter_append]
  simp only [List.length_append, c1, c2]
  rfl

/-! ## Run-level helpers -/

theorem run_program_eq (fetch : Fetch) (records : List String) (st : PathState)
    (h : prepare_csv_file st = .ok records) :
    run_program fetch st =
      ((main_loop fetch).1, Event.openAppend :: (main_loop fetch).2,
       .file (records ++ writesOf (main_loop fetch).2)) := by
  unfold run_program
  rw [h]

theorem openAppend_count_main_loop (fetch : Fetch) :
    List.count Event.openAppend (main_loop fetch).2 = 0 :=
  List.count_eq_zero.mpr fun hmem => by
    have := main_loop_events_loopish fetch _ hmem
    simp [isLoopEvent] at this

theorem run_program_trace_of_ok (fetch : Fetch) (st : PathState)
    (h : (run_program fetch st).1 = .ok ()) :
    (run_program fetch st).2.1 = Event.openAppend :: (main_loop fetch).2 ∧
      (main_loop fetch).1 = .ok () := by
  cases st with
  | absent =>
    have e := run_program_eq fetch [] .absent rfl
    rw [e] at h ⊢
    exact ⟨rfl, h⟩
  | file records =>
    have e := run_program_eq fetch records (.file records) rfl
    rw [e] at h ⊢
    exact ⟨rfl, h⟩
  | nonfile =>
    exact Except.noConfusion
      (show Except.error PyError.unboundLocal = Except.ok () from h)

/-! ## Claims -/

/-- C4 (amended): for every identifier whose Python integer conversion
succeeds with a non-zero value `n` — every integer identifier `n ≠ 0`,
and every string identifier parsing to a non-zero integer — the lookup
resolves and fetches exactly the target
`<base>/<str(identifier)>-C`; for an integer identifier the middle part
is the decimal digits of `n`.  (The original claim, covering every
numeric identifier including `0`, is refuted by
`numeric_resolution_zero_cex`.) -/
theorem numeric_identifier_target (fetch : Fetch) (colour : Colour) (n : Int)
    (hp : pyIntOf colour = some n) (hn : n ≠ 0) :
    (scrape_colour fetch colour).2 =
      [Event.fetch (COLOUR_FINDER_URL ++ "/" ++ pyStrOf colour ++ "-C")] := by
  have hurl : colour_url? colour =
      some (COLOUR_FINDER_URL ++ "/" ++ pyStrOf colour ++ "-C") := by
    cases colour with
    | int m =>
      obtain rfl : m = n := by simpa [pyIntOf] using hp
      simp only [colour_url?, pyStrOf]
      rw [if_pos hn]
      rfl
    | str s =>
      have hps : pyIntParse s = some n := by simpa [pyIntOf] using hp
      simp only [colour_url?, pyStrOf, hps]
      rw [if_pos hn]
      rfl
  unfold scrape_colour
  rw [hurl]

/-- C4 counterexample: the numeric identifier `0` does not resolve to
`<base>/0-C`; `scrape_colour` raises `UnboundLocalError` and no fetch is
ever attempted (the trace is empty). -/
theorem numeric_resolution_zero_cex :
    scrape_colour benignFetch (Colour.int 0) = (.error .unboundLocal, []) := rfl

/-- C4 witness at the string identifier `"2995"` (parses to `2995 ≠ 0`). -/
theorem numeric_identifier_target_witness :
    pyIntOf (Colour.str "2995") = some 2995 ∧ (2995 : Int) ≠ 0 ∧
    (scrape_colour benignFetch (Colour.str "2995")).2 =
      [Event.fetch "https://www.pantone.com/color-finder/2995-C"] :=
  ⟨by decide, by decide, by
    rw [numeric_identifier_target benignFetch (Colour.str "2995") 2995 (by decide) (by decide)]
    decide⟩

/-- C5: for every name identifier (a string whose Python integer
conversion fails), the lookup resolves and fetches exactly the target
`<base>/` followed by the name with every space replaced by a hyphen. -/
theorem name_identifier_target (fetch : Fetch) (s : String)
    (hp : pyIntParse s = none) :
    (scrape_colour fetch (Colour.str s)).2 =
      [Event.fetch (COLOUR_FINDER_URL ++ "/" ++ pyReplaceSpaceHyphen s)] := by
  have hurl : colour_url? (Colour.str s) =
      some (COLOUR_FINDER_URL ++ "/" ++ pyReplaceSpaceHyphen s) := by
    simp only [colour_url?, hp]
    rfl
  unfold scrape_colour
  rw [hurl]

/-- C5 witness at the name identifier `"Black C"`. -/
theorem name_identifier_target_witness :
    pyIntParse "Black C" = none ∧
    (scrape_colour benignFetch (Colour.str "Black C")).2 =
      [Event.fetch "https://www.pantone.com/color-finder/Black-C"] :=
  ⟨by decide, by
    rw [name_identifier_target benignFetch "Black C" (by decide)]
    decide⟩

/-- C10: for every identifier whose Python integer conversion yields
`0` (the integer `0` or a digit string such as `"0"`), `scrape_colour`
raises (`UnboundLocalError`) before any fetch is attempted: the result
is the error, the trace is empty, and neither depends on the fetch
oracle. -/
theorem zero_identifier_raises (fetch : Fetch) (colour : Colour)
    (h : pyIntOf colour = some 0) :
    scrape_colour fetch colour = (.error .unboundLocal, []) := by
  have hurl : colour_url? colour = none := by
    cases colour with
    | int m =>
      obtain rfl : m = 0 := by simpa [pyIntOf] using h
      simp [colour_url?]
    | str s =>
      have hps : pyIntParse s = some 0 := by simpa [pyIntOf] using h
      simp [colour_url?, hps]
  unfold scrape_colour
  rw [hurl]

/-- C10 witness at the digit-string identifier `"0"`. -/
theorem zero_identifier_raises_witness :
    pyIntOf (Colour.str "0") = some 0 ∧
    scrape_colour raiseFetch (Colour.str "0") = (.error .unboundLocal, []) :=
  ⟨by decide, zero_identifier_raises raiseFetch (Colour.str "0") (by decide)⟩

/-- C6: extraction is total on every parsed document: a missing class
marker (`pColorCode`) or id marker (`ctl00_cphContent_ctl00_divHEXValues`)
yields the absent value for that field, and a present marker yields its
stripped text; the two lookups are independent. -/
theorem extraction_total (soup : Soup) :
    (soup.findByClass "pColorCode" = none → get_colour_code soup = none) ∧
    (∀ el, soup.findByClass "pColorCode" = some el →
      get_colour_code soup = some (pyStrip el.text)) ∧
    (soup.findById "ctl00_cphContent_ctl00_divHEXValues" = none →
      get_colour_hex soup = none) ∧
    (∀ el, soup.findById "ctl00_cphContent_ctl00_divHEXValues" = some el →
      get_colour_hex soup = some (pyStrip el.text)) := by
  refine ⟨fun h => ?_, fun el h => ?_, fun h => ?_, fun el h => ?_⟩ <;>
    first
      | (unfold get_colour_code; rw [h])
      | (unfold get_colour_hex; rw [h])

/-- C6 witness: a document carrying an (untrimmed) code marker and a
document carrying no id marker. -/
theorem extraction_total_witness :
    get_colour_code demoSoup = some "2995 C" ∧ get_colour_hex emptySoup = none :=
  ⟨((extraction_total demoSoup).2.1 { text := "  2995 C  " } rfl).trans (by decide),
   (extraction_total emptySoup).2.2.1 rfl⟩


/-- The Output Records the spec predicts for one processed identifier:
one record in the exact format of source line 176 when both fields are
present, none otherwise. -/
def expectedRecordWrites : Option String × Option String → List String
  | (some colour_code, some colour_hex) =>
    [colour_code ++ ", " ++ colour_hex ++ ", \n"]
  | _ => []

/-- The sleeps actually performed for one processed identifier: one
one-second sleep when both fields are present, none otherwise. -/
def expectedDelay : Option String × Option String → List Event
  | (some _, some _) => [Event.sleep 1]
  | _ => []

/-- C3: for each identifier the controller processes whose lookup
returns a tuple, exactly one Output Record of the exact form
`"{code}, {hex}, \n"` is appended when both fields are present, and
zero records are appended when either field is absent; either way the
iteration completes normally. -/
theorem record_written_iff_complete (fetch : Fetch) (colour : Colour)
    (pr : Option String × Option String)
    (h : (scrape_colour fetch colour).1 = .ok (some pr)) :
    writesOf (process_colour fetch colour).2 = expectedRecordWrites pr ∧
    (process_colour fetch colour).1 = .ok () := by
  obtain ⟨c?, x?⟩ := pr
  rw [process_colour_eq, h]
  rcases c? with _ | c <;> rcases x? with _ | x <;>
    dsimp only [expectedRecordWrites] <;> refine ⟨?_, rfl⟩
  · rw [writesOf_scrape]
  · rw [writesOf_scrape]
  · rw [writesOf_scrape]
  · rw [writesOf_append, writesOf_scrape]
    rfl

/-- C3 witness: a complete lookup for `"2995"` appends exactly the
record `"2995 C, 00A9E0, \n"`. -/
theorem record_written_iff_complete_witness :
    (scrape_colour fullFetch (Colour.str "2995")).1 =
      .ok (some (some "2995 C", some "00A9E0")) ∧
    writesOf (process_colour fullFetch (Colour.str "2995")).2 =
      ["2995 C, 00A9E0, \n"] := by
  have h : (scrape_colour fullFetch (Colour.str "2995")).1 =
      .ok (some (some "2995 C", some "00A9E0")) := rfl
  exact ⟨h,
    (record_written_iff_complete fullFetch (Colour.str "2995")
      (some "2995 C", some "00A9E0") h).1⟩

/-- C7 (amended): the fixed one-second inter-request delay is applied
after an identifier exactly when its lookup returned both fields
present; after a failed or incomplete lookup the controller proceeds to
the next identifier with no delay at all.  (The original claim — delay
regardless of outcome — is refuted by `delay_omitted_on_failure_cex`.) -/
theorem delay_follows_success_only (fetch : Fetch) (colour : Colour)
    (pr : Option String × Option String)
    (h : (scrape_colour fetch colour).1 = .ok (some pr)) :
    sleepsOf (process_colour fetch colour).2 = expectedDelay pr := by
  obtain ⟨c?, x?⟩ := pr
  rw [process_colour_eq, h]
  rcases c? with _ | c <;> rcases x? with _ | x <;> dsimp only [expectedDelay]
  · rw [sleepsOf_scrape]
  · rw [sleepsOf_scrape]
  · rw [sleepsOf_scrape]
  · rw [sleepsOf_append, sleepsOf_scrape]
    rfl

/-- C7 counterexample: the identifier `"Black C"` is processed to
completion with a failed (field-less) lookup and no sleep occurs,
refuting "delay regardless of whether the lookup succeeded". -/
theorem delay_omitted_on_failure_cex :
    (process_colour benignFetch (Colour.str "Black C")).1 = .ok () ∧
    sleepsOf (process_colour benignFetch (Colour.str "Black C")).2 = [] :=
  ⟨rfl, rfl⟩

/-- C7 witness: a successful lookup is followed by exactly one
one-second sleep. -/
theorem delay_follows_success_only_witness :
    (scrape_colour fullFetch (Colour.str "2995")).1 =
      .ok (some (some "2995 C", some "00A9E0")) ∧
    sleepsOf (process_colour fullFetch (Colour.str "2995")).2 = [Event.sleep 1] := by
  have h : (scrape_colour fullFetch (Colour.str "2995")).1 =
      .ok (some (some "2995 C", some "00A9E0")) := rfl
  exact ⟨h,
    delay_follows_success_only fullFetch (Colour.str "2995")
      (some "2995 C", some "00A9E0") h⟩

/-- C1 (code bug): on a non-success status the lookup returns Python's
bare `None` — not the pair `(None, None)` the spec states — and on a
transport failure the exception propagates out of `scrape_colour`
instead of being recovered. -/
theorem fetch_failure_lookup_outcome :
    (scrape_colour failStatusFetch (Colour.str "Black C")).1 = .ok none ∧
    (scrape_colour failStatusFetch (Colour.str "Black C")).1 ≠
      .ok (some (none, none)) ∧
    (scrape_colour raiseFetch (Colour.str "Black C")).1 = .error .requestException := by
  refine ⟨rfl, ?_, rfl⟩
  intro hc
  rw [show (scrape_colour failStatusFetch (Colour.str "Black C")).1 = .ok none from rfl]
    at hc
  simp at hc

/-- C2 (code bug): a fetch failure does halt the run: `main` subscripts
the bare `None` returned by `scrape_colour`, raising `TypeError` on the
very first identifier, and the completion notification is never
emitted. -/
theorem fetch_failure_halts_run :
    (run_program failStatusFetch .absent).1 = .error .typeErrorSubscript ∧
    Event.consoleLine "Scraping is complete." ∉ (run_program failStatusFetch .absent).2.1 := by
  refine ⟨rfl, ?_⟩
  have ht : (run_program failStatusFetch .absent).2.1 =
      [Event.openAppend,
       Event.fetch "https://www.pantone.com/color-finder/Black-C"] := rfl
  rw [ht]
  decide

/-- C8: the sink is opened exactly once per run (one `openAppend` per
run trace), always in append mode whether the output file pre-exists
(`prepare_csv_file` keeps its records) or not (it starts empty), so two
complete runs against an initially absent output path leave a file
whose record count is the sum of the two runs' successful-lookup
counts. -/
theorem sink_append_accumulation (f1 f2 : Fetch)
    (h1 : (run_program f1 .absent).1 = .ok ())
    (h2 : (run_program f2 (run_program f1 .absent).2.2).1 = .ok ()) :
    prepare_csv_file .absent = .ok [] ∧
    (∀ records, prepare_csv_file (.file records) = .ok records) ∧
    List.count Event.openAppend (run_program f1 .absent).2.1 = 1 ∧
    List.count Event.openAppend (run_program f2 (run_program f1 .absent).2.2).2.1 = 1 ∧
    ∃ finalRecords,
      (run_program f2 (run_program f1 .absent).2.2).2.2 = PathState.file finalRecords ∧
      finalRecords.length =
        successCount f1 allIdentifiers + successCount f2 allIdentifiers := by
  have e1 : run_program f1 .absent =
      ((main_loop f1).1, Event.openAppend :: (main_loop f1).2,
       .file ([] ++ writesOf (main_loop f1).2)) :=
    run_program_eq f1 [] .absent rfl
  have hm1 : (main_loop f1).1 = .ok () := by
    rw [e1] at h1
    exact h1
  have hst : (run_program f1 .absent).2.2 = PathState.file (writesOf (main_loop f1).2) := by
    rw [e1]
    simp
  rw [hst] at h2 ⊢
  have e2 : run_program f2 (.file (writesOf (main_loop f1).2)) =
      ((main_loop f2).1, Event.openAppend :: (main_loop f2).2,
       .file (writesOf (main_loop f1).2 ++ writesOf (main_loop f2).2)) :=
    run_program_eq f2 _ _ rfl
  have hm2 : (main_loop f2).1 = .ok () := by
    rw [e2] at h2
    exact h2
  refine ⟨rfl, fun records => rfl, ?_, ?_, ?_⟩
  · rw [e1]
    dsimp only
    rw [List.count_cons_self, openAppend_count_main_loop]
  · rw [e2]
    dsimp only
    rw [List.count_cons_self, openAppend_count_main_loop]
  · refine ⟨writesOf (main_loop f1).2 ++ writesOf (main_loop f2).2, ?_, ?_⟩
    · rw [e2]
    · rw [List.length_append, main_loop_writes_count f1 hm1, main_loop_writes_count f2 hm2]

/-- C8 witness: two benign runs from an absent output path both
complete and accumulate `0 + 0` records. -/
theorem sink_append_accumulation_witness :
    (run_program benignFetch .absent).1 = .ok () ∧
    (run_program benignFetch (run_program benignFetch .absent).2.2).1 = .ok () ∧
    ∃ finalRecords,
      (run_program benignFetch (run_program benignFetch .absent).2.2).2.2 =
        PathState.file finalRecords ∧
      finalRecords.length =
        successCount benignFetch allIdentifiers +
          successCount benignFetch allIdentifiers := by
  have hp1 : (run_program benignFetch .absent).1 = .ok () :=
    run_program_benign_ok .absent [] rfl
  have e1 : run_program benignFetch .absent =
      ((main_loop benignFetch).1, Event.openAppend :: (main_loop benignFetch).2,
       .file ([] ++ writesOf (main_loop benignFetch).2)) :=
    run_program_eq benignFetch [] .absent rfl
  have hp2 : (run_program benignFetch (run_program benignFetch .absent).2.2).1 = .ok () := by
    rw [e1]
    exact run_program_benign_ok _ _ rfl
  exact ⟨hp1, hp2, (sink_append_accumulation benignFetch benignFetch hp1 hp2).2.2.2.2⟩

/-- C9 counterexample: a run that reaches the terminal state (benign
oracle, absent output path) emits no close of the sink handle: the
claim's "and closing the sink handle" does not happen. -/
theorem run_completes_without_closing_cex :
    (run_program benignFetch .absent).1 = .ok () ∧
    Event.closeSink ∉ (run_program benignFetch .absent).2.1 := by
  have h : (run_program benignFetch .absent).1 = .ok () :=
    run_program_benign_ok .absent [] rfl
  refine ⟨h, ?_⟩
  obtain ⟨htr, _⟩ := run_program_trace_of_ok benignFetch .absent h
  rw [htr]
  intro hmem
  rcases List.mem_cons.mp hmem with hc | hc
  · cases hc
  · have := main_loop_events_loopish benignFetch _ hc
    simp [isLoopEvent] at this

/-- C9 (amended): when both phases are exhausted and the run completes,
the controller's final action is the completion notification
`"Scraping is complete."`; the sink handle is never explicitly closed
by the controller (it is released only when the process exits).  (The
original claim's "closing the sink handle" is refuted by
`run_completes_without_closing_cex`.) -/
theorem completion_without_close (fetch : Fetch) (st : PathState)
    (h : (run_program fetch st).1 = .ok ()) :
    (run_program fetch st).2.1.getLast? =
      some (Event.consoleLine "Scraping is complete.") ∧
    Event.closeSink ∉ (run_program fetch st).2.1 := by
  obtain ⟨htr, hm⟩ := run_program_trace_of_ok fetch st h
  rw [htr]
  constructor
  · rw [main_loop_ok_trace fetch hm, ← List.cons_append, List.getLast?_concat]
  · intro hmem
    rcases List.mem_cons.mp hmem with hc | hc
    · cases hc
    · have := main_loop_events_loopish fetch _ hc
      simp [isLoopEvent] at this

/-- C9 witness: the benign run completes and its last event is the
completion notification. -/
theorem completion_without_close_witness :
    (run_program benignFetch .absent).1 = .ok () ∧
    (run_program benignFetch .absent).2.1.getLast? =
      some (Event.consoleLine "Scraping is complete.") := by
  have h : (run_program benignFetch .absent).1 = .ok () :=
    run_program_benign_ok .absent [] rfl
  exact ⟨h, (completion_without_close benignFetch .absent h).1⟩
